import Mathlib

/-!
Verification development for the MotionPad repository.

The repository is a hands-free 2D whiteboard: a MediaPipe hand tracker
feeds per-frame landmark lists into pose predicates and a gesture
aggregator (src/unnamed/part_000, `useHandTracking`), and a reducer over
an explicit canvas state applies discrete commands, snapping and linear
undo/redo history (src/lib/whiteboard-reducer.ts, `canvasReducer`).

The embedding below follows the TypeScript source function by function.
JavaScript numbers are modelled by the rationals `ℚ`: every constant
appearing in the development (grid size 10, snap threshold 15, pinch
threshold 0.05, object sizes 100/150, the concrete coordinates of the
claims) and every operation used on them (addition, subtraction,
halving, division by the grid size, comparison) is exact in binary
floating point at these magnitudes, so `ℚ` is a faithful model on the
inputs exercised here.  Reading a property of `undefined` (an
out-of-range array access) throws a `TypeError` in JavaScript; a
function that can do so is modelled with an `Option` result, `none`
standing for the thrown exception.
-/

namespace MotionPad

/-! ## Landmark pose classifier (src/unnamed/part_000, second hook version) -/

/-- One tracked hand landmark, normalized to [0,1] of the frame. -/
structure Landmark where
  x : ℚ
  y : ℚ
deriving DecidableEq, Repr

/-- PINCH_THRESHOLD = 0.05 in the source. -/
def PINCH_THRESHOLD : ℚ := 5 / 100

/-- Model of the JavaScript array access `landmarks[i]`: `none` is
`undefined`, and reading `.x`/`.y` from it throws. -/
def lmGet (landmarks : List Landmark) (i : ℕ) : Option Landmark :=
  landmarks.get? i

/-- Source `detectFist`: index and middle fingertips below their PIP
joints.  Guard: `if (landmarks.length < 13) return false`. -/
def detectFist (landmarks : List Landmark) : Option Bool :=
  if landmarks.length < 13 then some false else do
    let indexTip ← lmGet landmarks 8
    let indexPip ← lmGet landmarks 5
    let middleTip ← lmGet landmarks 12
    let middlePip ← lmGet landmarks 9
    let indexCurl := indexTip.y > indexPip.y
    let middleCurl := middleTip.y > middlePip.y
    some (indexCurl && middleCurl)

/-- Source `detectOpenHand`: index and middle fingertips above their PIP
joints.  Guard: `if (landmarks.length < 13) return false`. -/
def detectOpenHand (landmarks : List Landmark) : Option Bool :=
  if landmarks.length < 13 then some false else do
    let indexTip ← lmGet landmarks 8
    let indexPip ← lmGet landmarks 5
    let middleTip ← lmGet landmarks 12
    let middlePip ← lmGet landmarks 9
    let indexOpen := indexTip.y < indexPip.y
    let middleOpen := middleTip.y < middlePip.y
    some (indexOpen && middleOpen)

/-- Source `detectPinch`: Euclidean distance between thumb tip (4) and
index tip (8) below `PINCH_THRESHOLD`.  Guard:
`if (landmarks.length < 9) return false`.  The source compares
`sqrt(dx^2 + dy^2) < t`; for a nonnegative radicand and positive `t`
this is equivalent to `dx^2 + dy^2 < t^2`, which is how the comparison
is stated here since `ℚ` has no square root. -/
def detectPinch (landmarks : List Landmark) : Option Bool :=
  if landmarks.length < 9 then some false else do
    let thumbTip ← lmGet landmarks 4
    let indexTip ← lmGet landmarks 8
    let sq := (thumbTip.x - indexTip.x) ^ 2 + (thumbTip.y - indexTip.y) ^ 2
    some (sq < PINCH_THRESHOLD ^ 2)

/-- Source `detectPointing`: index extended, middle/ring/pinky curled.
Guard: `if (landmarks.length < 13) return false`, yet the body reads
landmarks 13, 16, 17 and 20, so a list of length 13 to 20 passes the
guard and then reads `.y` from `undefined`, modelled by `none`. -/
def detectPointing (landmarks : List Landmark) : Option Bool :=
  if landmarks.length < 13 then some false else do
    let indexTip ← lmGet landmarks 8
    let indexPip ← lmGet landmarks 5
    let middleTip ← lmGet landmarks 12
    let middlePip ← lmGet landmarks 9
    let ringTip ← lmGet landmarks 16
    let ringPip ← lmGet landmarks 13
    let pinkyTip ← lmGet landmarks 20
    let pinkyPip ← lmGet landmarks 17
    let indexExtended := indexTip.y < indexPip.y
    let middleCurl := middleTip.y > middlePip.y
    let ringCurl := ringTip.y > ringPip.y
    let pinkyCurl := pinkyTip.y > pinkyPip.y
    some (indexExtended && middleCurl && ringCurl && pinkyCurl)

/-! ## Gesture aggregator (src/unnamed/part_000, `processResults`) -/

/-- Per-hand sample exposed by the hook: wrist position plus the four
pose predicates. -/
structure HandPosition where
  x : ℚ
  y : ℚ
  isFist : Bool
  isOpen : Bool
  isPinch : Bool
  isPointing : Bool
deriving DecidableEq, Repr

/-- The discrete gesture values; the TypeScript union also admits
`null`, which is `Option.none` here. -/
inductive Gesture where
  | grab
  | release
  | pan
  | pointing
deriving DecidableEq, Repr

/-- Gesture resolution of `processResults` (the priority chain over
`leftIsPinch`, `rightIsPinch`, `leftIsPointing`, `rightIsPointing`,
`leftIsOpen`, `rightIsOpen` and `wasGrabbing`).  The `?? false`
defaults of the source become `Option.map` plus `getD false`. -/
def resolveGesture (leftHand rightHand : Option HandPosition)
    (lastGesture : Option Gesture) : Option Gesture :=
  let leftIsPinch := (leftHand.map (·.isPinch)).getD false
  let rightIsPinch := (rightHand.map (·.isPinch)).getD false
  let leftIsPointing := (leftHand.map (·.isPointing)).getD false
  let rightIsPointing := (rightHand.map (·.isPointing)).getD false
  let leftIsOpen := (leftHand.map (·.isOpen)).getD false
  let rightIsOpen := (rightHand.map (·.isOpen)).getD false
  let wasGrabbing := lastGesture == some Gesture.grab
  if leftIsPinch && rightIsPinch && leftHand.isSome && rightHand.isSome then
    some Gesture.pan
  else if leftIsPinch || rightIsPinch then
    some Gesture.grab
  else if leftIsPointing || rightIsPointing then
    some Gesture.pointing
  else if wasGrabbing && (leftIsOpen || rightIsOpen || (leftHand.isNone && rightHand.isNone)) then
    some Gesture.release
  else if (leftIsOpen && rightHand.isNone) || (rightIsOpen && leftHand.isNone) then
    some Gesture.release
  else
    none

/-! ## Canvas data model (src/lib/whiteboard-types.ts and the
`initialState` literal in src/README.md / src/app/page.tsx, which also
carries `snapGuides`) -/

inductive ObjectType where
  | box
  | sticky
  | circle
  | arrow
  | textbox
deriving DecidableEq, Repr

structure CanvasObject where
  id : String
  type : ObjectType
  x : ℚ
  y : ℚ
  width : ℚ
  height : ℚ
  color : String
  text : Option String
  locked : Bool
deriving DecidableEq, Repr

inductive Edge where
  | left
  | right
  | top
  | bottom
  | centerX
  | centerY
deriving DecidableEq, Repr

inductive GuideAxis where
  | vertical
  | horizontal
deriving DecidableEq, Repr

structure GuideEndpoint where
  id : String
  edge : Edge
deriving DecidableEq, Repr

structure SnapGuide where
  type : GuideAxis
  position : ℚ
  fromObject : GuideEndpoint
  toObject : GuideEndpoint
deriving DecidableEq, Repr

structure SnapResult where
  x : ℚ
  y : ℚ
  guides : List SnapGuide
deriving DecidableEq, Repr

structure CanvasState where
  objects : List CanvasObject
  selectedId : Option String
  panX : ℚ
  panY : ℚ
  zoom : ℚ
  history : List (List CanvasObject)
  historyIndex : ℤ
  snapGuides : List SnapGuide
deriving DecidableEq, Repr

inductive CanvasAction where
  | create (objectType : ObjectType) (x y : ℚ)
  | move (id : String) (x y : ℚ)
  | delete (id : String)
  | duplicate (id : String)
  | color (id : String) (color : String)
  | text (id : String) (text : String)
  | lock (id : String)
  | unlock (id : String)
  | select (id : Option String)
  | clearSnapGuides
  | pan (deltaX deltaY : ℚ)
  | zoom (delta : ℚ)
  | resetCanvas
  | undo
  | redo
  | saveSnapshot
deriving DecidableEq, Repr

/-! ## Snapping engine (src/lib/whiteboard-reducer.ts, `calculateSnap`) -/

def GRID_SIZE : ℚ := 10
def SNAP_THRESHOLD : ℚ := 15

/-- JavaScript `Math.abs`. -/
def jsAbs (v : ℚ) : ℚ := if v < 0 then -v else v

/-- JavaScript `Math.round`: nearest integer, ties toward positive
infinity, i.e. `⌊v + 1/2⌋`. -/
def jsRound (v : ℚ) : ℤ := ⌊v + 1 / 2⌋

/-- Source `snapToGrid`: `Math.round(value / GRID_SIZE) * GRID_SIZE`. -/
def snapToGrid (value : ℚ) : ℚ := (jsRound (value / GRID_SIZE) : ℚ) * GRID_SIZE

/-- One entry of `bestXSnap` / `bestYSnap` in `calculateSnap`. -/
structure SnapCand where
  distance : ℚ
  position : ℚ
  guide : SnapGuide
deriving DecidableEq, Repr

/-- One `if (dist < SNAP_THRESHOLD) { if (!best || dist < best.distance)
best = cand }` step of `calculateSnap`. -/
def updateBest (best : Option SnapCand) (dist pos : ℚ) (guide : SnapGuide) :
    Option SnapCand :=
  if dist < SNAP_THRESHOLD then
    match best with
    | none => some ⟨dist, pos, guide⟩
    | some b => if dist < b.distance then some ⟨dist, pos, guide⟩ else some b
  else best

/-- The X-axis inner loop of `calculateSnap` for one `other` object:
for each of the three alignment positions of `other` (left edge, right
edge, center), try to snap the dragged left edge, right edge and
center against it, in source order. -/
def snapXAgainst (draggedObject : CanvasObject) (newX : ℚ)
    (other : CanvasObject) (best0 : Option SnapCand) : Option SnapCand :=
  let draggedLeft := newX
  let draggedRight := newX + draggedObject.width
  let draggedCenterX := newX + draggedObject.width / 2
  let alignmentsX : List (ℚ × Edge) :=
    [(other.x, Edge.left), (other.x + other.width, Edge.right),
     (other.x + other.width / 2, Edge.centerX)]
  alignmentsX.foldl (fun best align =>
    let best := updateBest best (jsAbs (draggedLeft - align.1)) align.1
      ⟨GuideAxis.vertical, align.1, ⟨draggedObject.id, Edge.left⟩, ⟨other.id, align.2⟩⟩
    let best := updateBest best (jsAbs (draggedRight - align.1)) (align.1 - draggedObject.width)
      ⟨GuideAxis.vertical, align.1, ⟨draggedObject.id, Edge.right⟩, ⟨other.id, align.2⟩⟩
    updateBest best (jsAbs (draggedCenterX - align.1)) (align.1 - draggedObject.width / 2)
      ⟨GuideAxis.vertical, align.1, ⟨draggedObject.id, Edge.centerX⟩, ⟨other.id, align.2⟩⟩)
    best0

/-- The Y-axis inner loop of `calculateSnap` for one `other` object. -/
def snapYAgainst (draggedObject : CanvasObject) (newY : ℚ)
    (other : CanvasObject) (best0 : Option SnapCand) : Option SnapCand :=
  let draggedTop := newY
  let draggedBottom := newY + draggedObject.height
  let draggedCenterY := newY + draggedObject.height / 2
  let alignmentsY : List (ℚ × Edge) :=
    [(other.y, Edge.top), (other.y + other.height, Edge.bottom),
     (other.y + other.height / 2, Edge.centerY)]
  alignmentsY.foldl (fun best align =>
    let best := updateBest best (jsAbs (draggedTop - align.1)) align.1
      ⟨GuideAxis.horizontal, align.1, ⟨draggedObject.id, Edge.top⟩, ⟨other.id, align.2⟩⟩
    let best := updateBest best (jsAbs (draggedBottom - align.1)) (align.1 - draggedObject.height)
      ⟨GuideAxis.horizontal, align.1, ⟨draggedObject.id, Edge.bottom⟩, ⟨other.id, align.2⟩⟩
    updateBest best (jsAbs (draggedCenterY - align.1)) (align.1 - draggedObject.height / 2)
      ⟨GuideAxis.horizontal, align.1, ⟨draggedObject.id, Edge.centerY⟩, ⟨other.id, align.2⟩⟩)
    best0

/-- Source `calculateSnap`: one pass over `otherObjects` (skipping the
dragged object itself and locked objects), keeping the best X and Y
candidates; a winning candidate fixes that axis and emits its guide
(X guide first, then Y, matching the two `guides.push` sites), and an
axis without a candidate falls back to grid snapping. -/
def calculateSnap (draggedObject : CanvasObject) (newX newY : ℚ)
    (otherObjects : List CanvasObject) : SnapResult :=
  let best := otherObjects.foldl
    (fun (acc : Option SnapCand × Option SnapCand) other =>
      if other.id == draggedObject.id || other.locked then acc
      else (snapXAgainst draggedObject newX other acc.1,
            snapYAgainst draggedObject newY other acc.2))
    (none, none)
  let snappedX := match best.1 with
    | some b => b.position
    | none => snapToGrid newX
  let snappedY := match best.2 with
    | some b => b.position
    | none => snapToGrid newY
  let guides :=
    (match best.1 with | some b => [b.guide] | none => []) ++
    (match best.2 with | some b => [b.guide] | none => [])
  ⟨snappedX, snappedY, guides⟩

/-! ## Canvas reducer (src/lib/whiteboard-reducer.ts, `canvasReducer`) -/

/-- Source `DEFAULT_COLORS` table. -/
def DEFAULT_COLORS : ObjectType → String
  | ObjectType.box => "#6596F3"
  | ObjectType.sticky => "#EAD094"
  | ObjectType.circle => "#F24E1E"
  | ObjectType.arrow => "#D3A4EA"
  | ObjectType.textbox => "#83B366"

/-- Source `createObject`.  `generateId` is impure (it reads the clock
and a random source), so the model takes the fresh id as an explicit
argument; theorems quantify over it. -/
def createObject (freshId : String) (type : ObjectType) (x y : ℚ) :
    CanvasObject :=
  { id := freshId
    type := type
    x := snapToGrid x
    y := snapToGrid y
    width := if type == ObjectType.circle then 100 else 100 * (3 / 2)
    height := if type == ObjectType.circle then 100 else 100
    color := DEFAULT_COLORS type
    text := if type == ObjectType.textbox || type == ObjectType.sticky then some "" else none
    locked := false }

/-- Source `ensureSnapGuides`.  In the TypeScript state the field can be
`undefined` (older persisted states); the model type is total, so the
normalization is the identity. -/
def ensureSnapGuides (state : CanvasState) : CanvasState := state

/-- JavaScript `array.slice(0, e)`: a negative end counts from the end
of the array (clamped at 0), an end beyond the length is clamped. -/
def jsSliceTo {α : Type} (l : List α) (e : ℤ) : List α :=
  if e < 0 then l.take ((l.length : ℤ) + e).toNat else l.take e.toNat

/-- JavaScript `history[i]` read at an index the reducer has just
checked to be in range (the `UNDO`/`REDO` branches). -/
def histGet (history : List (List CanvasObject)) (i : ℤ) : List CanvasObject :=
  history.getD i.toNat []

/-- Source `canvasReducer`.  History snapshots are deep copies via
`JSON.parse(JSON.stringify(...))`; in a value semantics that copy is
the identity.  `freshId` stands for the impure `generateId`. -/
def canvasReducer (freshId : String) (state : CanvasState)
    (action : CanvasAction) : CanvasState :=
  match action with
  | CanvasAction.create objectType x y =>
      let newObject := createObject freshId objectType x y
      ensureSnapGuides { state with
        objects := state.objects ++ [newObject]
        selectedId := some newObject.id
        snapGuides := [] }
  | CanvasAction.move id x y =>
      match state.objects.find? (fun o => o.id == id) with
      | none => state
      | some obj =>
        if obj.locked then state
        else
          let otherObjects := state.objects.filter (fun o => !(o.id == id))
          let snapResult := calculateSnap obj x y otherObjects
          ensureSnapGuides { state with
            objects := state.objects.map (fun o =>
              if o.id == id then { o with x := snapResult.x, y := snapResult.y } else o)
            snapGuides := snapResult.guides }
  | CanvasAction.delete id =>
      if state.selectedId == some id then
        ensureSnapGuides { state with
          objects := state.objects.filter (fun o => !(o.id == id))
          selectedId := none }
      else
        ensureSnapGuides { state with
          objects := state.objects.filter (fun o => !(o.id == id)) }
  | CanvasAction.duplicate id =>
      match state.objects.find? (fun o => o.id == id) with
      | none => state
      | some obj =>
        let duplicated : CanvasObject :=
          { obj with id := freshId, x := snapToGrid (obj.x + 20), y := snapToGrid (obj.y + 20) }
        ensureSnapGuides { state with
          objects := state.objects ++ [duplicated]
          selectedId := some duplicated.id }
  | CanvasAction.color id c =>
      ensureSnapGuides { state with
        objects := state.objects.map (fun o =>
          if o.id == id then { o with color := c } else o) }
  | CanvasAction.text id t =>
      ensureSnapGuides { state with
        objects := state.objects.map (fun o =>
          if o.id == id then { o with text := some t } else o) }
  | CanvasAction.lock id =>
      ensureSnapGuides { state with
        objects := state.objects.map (fun o =>
          if o.id == id then { o with locked := true } else o) }
  | CanvasAction.unlock id =>
      ensureSnapGuides { state with
        objects := state.objects.map (fun o =>
          if o.id == id then { o with locked := false } else o) }
  | CanvasAction.select id =>
      ensureSnapGuides { state with selectedId := id, snapGuides := [] }
  | CanvasAction.clearSnapGuides =>
      ensureSnapGuides { state with snapGuides := [] }
  | CanvasAction.pan deltaX deltaY =>
      ensureSnapGuides { state with
        panX := state.panX + deltaX
        panY := state.panY + deltaY
        snapGuides := [] }
  | CanvasAction.zoom delta =>
      let newZoom := max (1 / 10) (min 3 (state.zoom + delta))
      ensureSnapGuides { state with zoom := newZoom }
  | CanvasAction.resetCanvas =>
      ensureSnapGuides { state with panX := 0, panY := 0, zoom := 1 }
  | CanvasAction.saveSnapshot =>
      let newHistory := jsSliceTo state.history (state.historyIndex + 1) ++ [state.objects]
      ensureSnapGuides { state with
        history := newHistory
        historyIndex := (newHistory.length : ℤ) - 1 }
  | CanvasAction.undo =>
      if state.historyIndex > 0 then
        let prevIndex := state.historyIndex - 1
        ensureSnapGuides { state with
          objects := histGet state.history prevIndex
          historyIndex := prevIndex
          selectedId := none }
      else state
  | CanvasAction.redo =>
      if state.historyIndex < (state.history.length : ℤ) - 1 then
        let nextIndex := state.historyIndex + 1
        ensureSnapGuides { state with
          objects := histGet state.history nextIndex
          historyIndex := nextIndex
          selectedId := none }
      else state

/-- Initial state literal from src/README.md and src/app/page.tsx. -/
def initialState : CanvasState :=
  { objects := []
    selectedId := none
    panX := 0
    panY := 0
    zoom := 1
    history := [[]]
    historyIndex := 0
    snapGuides := [] }


/-! ## Concrete fixtures used by the claim theorems -/

/-- Landmark list of length 13: it passes the `length < 13` guards but
has no entries at indices 13, 16, 17, 20. -/
def lm13 : List Landmark := List.replicate 13 ⟨0, 0⟩

/-- Landmark list of length 5: shorter than every guard. -/
def lm5 : List Landmark := List.replicate 5 ⟨0, 0⟩

/-- Hand sample that is simultaneously pinching and open (thumb tip on
the index tip while index and middle are extended). -/
def handPinchOpen : HandPosition :=
  { x := 0, y := 0, isFist := false, isOpen := true, isPinch := true, isPointing := false }

/-- Hand sample that is pinching only. -/
def handPinch : HandPosition :=
  { x := 0, y := 0, isFist := false, isOpen := false, isPinch := true, isPointing := false }

/-- Hand sample that is pointing only. -/
def handPointing : HandPosition :=
  { x := 0, y := 0, isFist := false, isOpen := false, isPinch := false, isPointing := true }

/-! ## Claim theorems: pose classifier and gesture aggregator -/

/-- Claim C1 (code bug): `detectPointing` on a landmark list of length
13 passes its own `length < 13` guard and then reads `.y` of the
missing landmark 16, i.e. it throws instead of returning `false`; the
other three predicates do fail closed on the same short inputs. -/
theorem detectPointing_throws_on_length13 :
    detectPointing lm13 = none ∧
    detectFist lm5 = some false ∧
    detectOpenHand lm5 = some false ∧
    detectPinch lm5 = some false ∧
    detectPointing lm5 = some false := by
  decide

/-- Claim C3 counterexample: with the previous gesture `grab`, a single
present hand that is open but also still registering a pinch resolves
to `grab`, not `release` — the pinch branches sit above the release
branches in the priority chain, so "previous was grab and a hand is
open implies release" fails as stated. -/
theorem c3_grab_open_pinch_not_release :
    resolveGesture (some handPinchOpen) none (some Gesture.grab) = some Gesture.grab ∧
    resolveGesture (some handPinchOpen) none (some Gesture.grab) ≠ some Gesture.release := by
  decide

/-- Claim C3 (amended): if the previous resolved gesture was `grab`, no
present hand is pinching or pointing, and either some hand is open or
both hands are absent, then the resolved gesture is `release` (in
particular a grab frame followed by a frame with no hands resolves to
`release`, never `none`). -/
theorem c3_release_hysteresis (l r : Option HandPosition) (g : Option Gesture)
    (hg : g = some Gesture.grab)
    (hlp : (l.map (·.isPinch)).getD false = false)
    (hrp : (r.map (·.isPinch)).getD false = false)
    (hlt : (l.map (·.isPointing)).getD false = false)
    (hrt : (r.map (·.isPointing)).getD false = false)
    (hopen : (l.map (·.isOpen)).getD false = true ∨
             (r.map (·.isOpen)).getD false = true ∨ (l = none ∧ r = none)) :
    resolveGesture l r g = some Gesture.release := by
  subst hg
  rcases hopen with h | h | ⟨h1, h2⟩
  · simp [resolveGesture, hlp, hrp, hlt, hrt, h]
  · simp [resolveGesture, hlp, hrp, hlt, hrt, h]
  · subst h1; subst h2
    simp [resolveGesture]

/-- Witness for the amended claim C3 at the concrete input of its first
half: previous gesture `grab`, both hands absent. -/
theorem c3_release_hysteresis_witness :
    ((none : Option HandPosition).map (·.isPinch)).getD false = false ∧
    resolveGesture none none (some Gesture.grab) = some Gesture.release :=
  ⟨rfl, c3_release_hysteresis none none (some Gesture.grab) rfl rfl rfl rfl rfl
    (Or.inr (Or.inr ⟨rfl, rfl⟩))⟩

/-- Claim C4: whenever both hands are present and both are pinching,
the resolved gesture is `pan`, for every combination of the remaining
predicates (including a simultaneously pointing hand) and every
previous gesture. -/
theorem c4_both_pinch_is_pan (lh rh : HandPosition) (g : Option Gesture)
    (hl : lh.isPinch = true) (hr : rh.isPinch = true) :
    resolveGesture (some lh) (some rh) g = some Gesture.pan := by
  simp [resolveGesture, hl, hr]

/-- Witness for claim C4: one hand pinching, the other both pinching
and pointing, still `pan`. -/
theorem c4_both_pinch_is_pan_witness :
    handPinch.isPinch = true ∧
    { handPointing with isPinch := true }.isPinch = true ∧
    resolveGesture (some handPinch) (some { handPointing with isPinch := true }) none =
      some Gesture.pan :=
  ⟨rfl, rfl, c4_both_pinch_is_pan handPinch { handPointing with isPinch := true } none rfl rfl⟩


/-! ## Claim theorems: snapping engine -/

/-- Object A of claim C6: at the origin, 100 by 100. -/
def objA : CanvasObject :=
  { id := "a", type := ObjectType.box, x := 0, y := 0, width := 100, height := 100,
    color := "#6596F3", text := none, locked := false }

/-- Object B of claim C6: 100 by 100, being dragged. -/
def objB : CanvasObject :=
  { id := "b", type := ObjectType.box, x := 200, y := 300, width := 100, height := 100,
    color := "#6596F3", text := none, locked := false }

/-- Claim C6: dragging B (100 by 100) to proposed (105, 5) next to A at
(0, 0, 100, 100) adjusts x to exactly 100 (left edge of B on the right
edge of A), and the guide list contains exactly one vertical guide,
at position 100, whose target is the right edge of A. -/
theorem c6_snap_to_right_edge :
    (calculateSnap objB 105 5 [objA]).x = 100 ∧
    (calculateSnap objB 105 5 [objA]).guides.filter
        (fun g => g.type == GuideAxis.vertical) =
      [{ type := GuideAxis.vertical, position := 100,
         fromObject := { id := "b", edge := Edge.left },
         toObject := { id := "a", edge := Edge.right } }] := by
  norm_num [calculateSnap, snapXAgainst, snapYAgainst, updateBest, jsAbs,
    snapToGrid, jsRound, GRID_SIZE, SNAP_THRESHOLD, objA, objB, List.filter]
  simp +decide


/-! ## Claim theorems: reducer error handling and history invariant -/

/-- Claim C5: a `move` whose target is missing or locked, an `undo` at
history index 0, and a `redo` at the last history index all return the
state unchanged (the reducer hits an early `return state`).  The move
hypothesis says: if the lookup finds an object it is locked (and is
vacuously true when the lookup fails). -/
theorem c5_noop_on_bad_target :
    (∀ (f : String) (s : CanvasState) (id : String) (x y : ℚ),
      ((s.objects.find? (fun o => o.id == id)).map (·.locked)).getD true = true →
      canvasReducer f s (CanvasAction.move id x y) = s) ∧
    (∀ (f : String) (s : CanvasState), s.historyIndex = 0 →
      canvasReducer f s CanvasAction.undo = s) ∧
    (∀ (f : String) (s : CanvasState),
      s.historyIndex = (s.history.length : ℤ) - 1 →
      canvasReducer f s CanvasAction.redo = s) := by
  refine ⟨?_, ?_, ?_⟩
  · intro f s id x y h
    cases hf : s.objects.find? (fun o => o.id == id) with
    | none => simp [canvasReducer, hf]
    | some o =>
      rw [hf] at h
      simp at h
      simp [canvasReducer, hf, h]
  · intro f s h
    simp [canvasReducer, h]
  · intro f s h
    simp [canvasReducer, h]
 
/-- Witness for claim C5 on the initial state: moving a missing id,
undoing at index 0 and redoing at the end of the one-entry history are
all no-ops. -/
theorem c5_noop_on_bad_target_witness :
    ((initialState.objects.find? (fun o => o.id == "ghost")).map (·.locked)).getD true = true ∧
    initialState.historyIndex = 0 ∧
    initialState.historyIndex = (initialState.history.length : ℤ) - 1 ∧
    canvasReducer "f" initialState (CanvasAction.move "ghost" 1 2) = initialState ∧
    canvasReducer "f" initialState CanvasAction.undo = initialState ∧
    canvasReducer "f" initialState CanvasAction.redo = initialState :=
  ⟨rfl, rfl, by decide,
   c5_noop_on_bad_target.1 "f" initialState "ghost" 1 2 rfl,
   c5_noop_on_bad_target.2.1 "f" initialState rfl,
   c5_noop_on_bad_target.2.2 "f" initialState (by decide)⟩

/-- History index invariant of the specification:
`0 ≤ historyIndex < len(history)`. -/
def historyInv (s : CanvasState) : Prop :=
  0 ≤ s.historyIndex ∧ s.historyIndex < (s.history.length : ℤ)

/-- Claim C9: the history index invariant holds in the initial state
(one empty snapshot, index 0) and is preserved by every reducer
action, for every fresh id. -/
theorem c9_history_invariant :
    historyInv initialState ∧
    ∀ (f : String) (s : CanvasState) (a : CanvasAction),
      historyInv s → historyInv (canvasReducer f s a) := by
  constructor
  · exact ⟨le_refl 0, by norm_num [initialState]⟩
  · intro f s a h
    obtain ⟨h0, h1⟩ := h
    cases a with
    | create t x y => exact ⟨h0, h1⟩
    | move id x y =>
      cases hf : s.objects.find? (fun o => o.id == id) with
      | none => simpa [canvasReducer, hf, historyInv] using ⟨h0, h1⟩
      | some o =>
        by_cases hl : o.locked <;>
          simpa [canvasReducer, hf, hl, ensureSnapGuides, historyInv] using ⟨h0, h1⟩
    | delete id =>
      by_cases hs : s.selectedId == some id <;>
        simpa [canvasReducer, hs, ensureSnapGuides, historyInv] using ⟨h0, h1⟩
    | duplicate id =>
      cases hf : s.objects.find? (fun o => o.id == id) with
      | none => simpa [canvasReducer, hf, historyInv] using ⟨h0, h1⟩
      | some o => simpa [canvasReducer, hf, ensureSnapGuides, historyInv] using ⟨h0, h1⟩
    | color id c => exact ⟨h0, h1⟩
    | text id t => exact ⟨h0, h1⟩
    | lock id => exact ⟨h0, h1⟩
    | unlock id => exact ⟨h0, h1⟩
    | select id => exact ⟨h0, h1⟩
    | clearSnapGuides => exact ⟨h0, h1⟩
    | pan dx dy => exact ⟨h0, h1⟩
    | zoom d => exact ⟨h0, h1⟩
    | resetCanvas => exact ⟨h0, h1⟩
    | saveSnapshot =>
      simp only [canvasReducer, ensureSnapGuides, historyInv, List.length_append,
        List.length_singleton]
      omega
    | undo =>
      by_cases hp : s.historyIndex > 0
      · simp only [canvasReducer, ensureSnapGuides, historyInv, hp, if_true, if_pos]
        omega
      · simpa [canvasReducer, hp, historyInv] using ⟨h0, h1⟩
    | redo =>
      by_cases hc : s.historyIndex < (s.history.length : ℤ) - 1
      · simp only [canvasReducer, ensureSnapGuides, historyInv, hc, if_true, if_pos]
        omega
      · simpa [canvasReducer, hc, historyInv] using ⟨h0, h1⟩

/-- Witness for claim C9: the invariant holds initially and after a
concrete `saveSnapshot` on the initial state. -/
theorem c9_history_invariant_witness :
    historyInv initialState ∧
    historyInv (canvasReducer "f" initialState CanvasAction.saveSnapshot) :=
  ⟨c9_history_invariant.1,
   c9_history_invariant.2 "f" initialState CanvasAction.saveSnapshot
     c9_history_invariant.1⟩


/-! ## History helper lemmas -/

theorem jsSliceTo_length {α : Type} (l : List α) :
    jsSliceTo l (l.length : ℤ) = l := by
  simp [jsSliceTo]

theorem getD_append_lt {α : Type} (l l' : List α) (i : ℕ) (h : i < l.length)
    (d : α) : (l ++ l').getD i d = l.getD i d := by
  simp [List.getD_eq_getElem?_getD, List.getElem?_append, h]

theorem getD_snoc_length {α : Type} (l : List α) (a d : α) :
    (l ++ [a]).getD l.length d = a := by
  simp [List.getD_eq_getElem?_getD, List.getElem?_append_right (le_refl l.length)]

/-! ## Claim theorems: history truncation and undo/redo round trip -/

/-- Claim C7: `saveSnapshot` truncates history strictly after the
current index, appends the current objects and moves the index to the
new last slot; consequently, after `undo; create(...); saveSnapshot`
a `redo` is a no-op on every starting state. -/
theorem c7_truncation_makes_redo_noop (f1 f2 f3 f4 : String) (s : CanvasState)
    (t : ObjectType) (x y : ℚ) :
    let s2 := canvasReducer f2 (canvasReducer f1 s CanvasAction.undo)
      (CanvasAction.create t x y)
    let s3 := canvasReducer f3 s2 CanvasAction.saveSnapshot
    s3.history = jsSliceTo s2.history (s2.historyIndex + 1) ++ [s2.objects] ∧
    s3.historyIndex = (s3.history.length : ℤ) - 1 ∧
    canvasReducer f4 s3 CanvasAction.redo = s3 := by
  intro s2 s3
  refine ⟨rfl, rfl, ?_⟩
  have hi : s3.historyIndex = (s3.history.length : ℤ) - 1 := rfl
  have hcond : ¬ (s3.historyIndex < (s3.history.length : ℤ) - 1) := by
    rw [hi]
    omega
  simp [canvasReducer, hcond]

/-- Claim C8: for every starting state, the sequence
`saveSnapshot; create(...); saveSnapshot; undo` brings the object
count back to the pre-create value, a following `redo` restores the
post-create count, and neither `undo` nor `redo` changes `history`. -/
theorem c8_undo_redo_roundtrip (f1 f2 f3 f4 f5 : String) (s : CanvasState)
    (t : ObjectType) (x y : ℚ) :
    let s1 := canvasReducer f1 s CanvasAction.saveSnapshot
    let s2 := canvasReducer f2 s1 (CanvasAction.create t x y)
    let s3 := canvasReducer f3 s2 CanvasAction.saveSnapshot
    let s4 := canvasReducer f4 s3 CanvasAction.undo
    let s5 := canvasReducer f5 s4 CanvasAction.redo
    s4.objects.length = s.objects.length ∧
    s5.objects.length = s.objects.length + 1 ∧
    s4.history = s3.history ∧
    s5.history = s3.history := by
  intro s1 s2 s3 s4 s5
  set pre := jsSliceTo s.history (s.historyIndex + 1) with hpre
  have hs2o : s2.objects = s.objects ++ [createObject f2 t x y] := rfl
  have hs2h : s2.history = pre ++ [s.objects] := rfl
  have hs2i : s2.historyIndex = ((pre ++ [s.objects]).length : ℤ) - 1 := rfl
  have hslice : jsSliceTo (pre ++ [s.objects])
      (((pre ++ [s.objects]).length : ℤ) - 1 + 1) = pre ++ [s.objects] := by
    have harith : ((pre ++ [s.objects]).length : ℤ) - 1 + 1 =
        ((pre ++ [s.objects]).length : ℤ) := by omega
    rw [harith]
    exact jsSliceTo_length _
  have hs3h : s3.history =
      (pre ++ [s.objects]) ++ [s.objects ++ [createObject f2 t x y]] := by
    show jsSliceTo s2.history (s2.historyIndex + 1) ++ [s2.objects] = _
    rw [hs2h, hs2i, hslice, hs2o]
  have hs3i : s3.historyIndex = (s3.history.length : ℤ) - 1 := rfl
  have hlen3 : s3.history.length = pre.length + 2 := by
    rw [hs3h]
    simp
  have hcond : s3.historyIndex > 0 := by
    rw [hs3i, hlen3]
    omega
  have hs4 : s4 =
      { s3 with
        objects := histGet s3.history (s3.historyIndex - 1)
        historyIndex := s3.historyIndex - 1
        selectedId := none } := by
    show canvasReducer f4 s3 CanvasAction.undo = _
    simp [canvasReducer, hcond, ensureSnapGuides]
  have hs4h : s4.history = s3.history := by rw [hs4]
  have hs4i : s4.historyIndex = s3.historyIndex - 1 := by rw [hs4]
  have hidx4 : (s3.historyIndex - 1).toNat = pre.length := by
    rw [hs3i, hlen3]
    omega
  have hobj4 : s4.objects = s.objects := by
    have : s4.objects = histGet s3.history (s3.historyIndex - 1) := by rw [hs4]
    rw [this, histGet, hidx4, hs3h,
      getD_append_lt _ _ _ (by simp), getD_snoc_length]
  have hcond5 : s4.historyIndex < (s4.history.length : ℤ) - 1 := by
    rw [hs4i, hs4h, hs3i, hlen3]
    omega
  have hs5 : s5 =
      { s4 with
        objects := histGet s4.history (s4.historyIndex + 1)
        historyIndex := s4.historyIndex + 1
        selectedId := none } := by
    show canvasReducer f5 s4 CanvasAction.redo = _
    simp [canvasReducer, hcond5, ensureSnapGuides]
  have hs5h : s5.history = s3.history := by rw [hs5, hs4h]
  have hidx5 : (s4.historyIndex + 1).toNat = pre.length + 1 := by
    rw [hs4i, hs3i, hlen3]
    omega
  have hobj5 : s5.objects = s.objects ++ [createObject f2 t x y] := by
    have : s5.objects = histGet s4.history (s4.historyIndex + 1) := by rw [hs5]
    rw [this, histGet, hidx5, hs4h, hs3h]
    have hlenpre : pre.length + 1 = (pre ++ [s.objects]).length := by simp
    rw [hlenpre, getD_snoc_length]
  refine ⟨?_, ?_, hs4h, hs5h⟩
  · rw [hobj4]
  · rw [hobj5]
    simp


/-! ## Claim theorems: move frame effect -/

/-- Default object used only as the `getD` fallback below. -/
def defaultObject : CanvasObject :=
  { id := "", type := ObjectType.box, x := 0, y := 0, width := 0, height := 0,
    color := "", text := none, locked := false }

theorem getD_map_lt {α β : Type} (g : α → β) (l : List α) (i : ℕ)
    (h : i < l.length) (d : β) (d' : α) :
    (l.map g).getD i d = g (l.getD i d') := by
  have hg : l[i]? = some l[i] := List.getElem?_eq_getElem h
  simp [List.getD_eq_getElem?_getD, List.getElem?_map, hg]

/-- Frame condition of a successful `move id`: relative to the state
`s`, the result `r` has the same selection, pan, zoom, history and
history index, the same number of objects in the same order, every
object keeps its id, type, size, color, text and lock flag, and every
object whose id is not the moved one is wholly unchanged (only the
`x`/`y` of the target and the `snapGuides` field may differ). -/
def moveFrame (s r : CanvasState) (id : String) : Prop :=
  r.selectedId = s.selectedId ∧ r.panX = s.panX ∧ r.panY = s.panY ∧
  r.zoom = s.zoom ∧ r.history = s.history ∧ r.historyIndex = s.historyIndex ∧
  r.objects.length = s.objects.length ∧
  ∀ i : ℕ, i < s.objects.length →
    (r.objects.getD i defaultObject).id = (s.objects.getD i defaultObject).id ∧
    (r.objects.getD i defaultObject).type = (s.objects.getD i defaultObject).type ∧
    (r.objects.getD i defaultObject).width = (s.objects.getD i defaultObject).width ∧
    (r.objects.getD i defaultObject).height = (s.objects.getD i defaultObject).height ∧
    (r.objects.getD i defaultObject).color = (s.objects.getD i defaultObject).color ∧
    (r.objects.getD i defaultObject).text = (s.objects.getD i defaultObject).text ∧
    (r.objects.getD i defaultObject).locked = (s.objects.getD i defaultObject).locked ∧
    ((s.objects.getD i defaultObject).id ≠ id →
      r.objects.getD i defaultObject = s.objects.getD i defaultObject)

/-- Claim C10: a `move` whose target exists and is unlocked changes at
most the x/y of the target and the snap guides; selection, pan, zoom,
history, history index, object count, object order and every other
field of every object are untouched. -/
theorem c10_move_frame_effect (f : String) (s : CanvasState) (id : String)
    (x y : ℚ) (obj : CanvasObject)
    (hfind : s.objects.find? (fun o => o.id == id) = some obj)
    (hlock : obj.locked = false) :
    moveFrame s (canvasReducer f s (CanvasAction.move id x y)) id := by
  have hred : canvasReducer f s (CanvasAction.move id x y) =
      { s with
        objects := s.objects.map (fun o =>
          if o.id == id then
            { o with
              x := (calculateSnap obj x y (s.objects.filter (fun o => !(o.id == id)))).x
              y := (calculateSnap obj x y (s.objects.filter (fun o => !(o.id == id)))).y }
          else o)
        snapGuides :=
          (calculateSnap obj x y (s.objects.filter (fun o => !(o.id == id)))).guides } := by
    simp [canvasReducer, hfind, hlock, ensureSnapGuides]
  rw [hred]
  refine ⟨rfl, rfl, rfl, rfl, rfl, rfl, by simp, ?_⟩
  intro i hi
  rw [getD_map_lt _ _ _ hi _ defaultObject]
  by_cases hc : (s.objects.getD i defaultObject).id == id
  · have heq : (s.objects.getD i defaultObject).id = id := by simpa using hc
    rw [if_pos hc]
    exact ⟨rfl, rfl, rfl, rfl, rfl, rfl, rfl, fun hne => absurd heq hne⟩
  · rw [if_neg hc]
    exact ⟨rfl, rfl, rfl, rfl, rfl, rfl, rfl, fun _ => rfl⟩

/-- Object moved in the witness for claim C10. -/
def objMove : CanvasObject :=
  { id := "m", type := ObjectType.box, x := 0, y := 0, width := 150, height := 100,
    color := "#6596F3", text := none, locked := false }

/-- State moved in the witness for claim C10. -/
def stMove : CanvasState := { initialState with objects := [objMove] }

/-- Witness for claim C10 at a concrete one-object state. -/
theorem c10_move_frame_effect_witness :
    stMove.objects.find? (fun o => o.id == "m") = some objMove ∧
    objMove.locked = false ∧
    moveFrame stMove (canvasReducer "f" stMove (CanvasAction.move "m" 3 7)) "m" :=
  ⟨rfl, rfl, c10_move_frame_effect "f" stMove "m" 3 7 objMove rfl rfl⟩

/-! ## Claim theorems: selection and snap-guide reference invariant -/

/-- Boolean form of the first half of the reference invariant:
`selectedId`, if set, names an object present in `objects`. -/
def selInvB (s : CanvasState) : Bool :=
  match s.selectedId with
  | none => true
  | some i => (s.objects.map (fun o => o.id)).contains i

/-- Boolean form of the second half of the reference invariant: every
snap guide endpoint names an object present in `objects`. -/
def guidesInvB (s : CanvasState) : Bool :=
  s.snapGuides.all (fun g =>
    (s.objects.map (fun o => o.id)).contains g.fromObject.id &&
    (s.objects.map (fun o => o.id)).contains g.toObject.id)

/-- Full reference invariant of the specification. -/
def stateInvB (s : CanvasState) : Bool := selInvB s && guidesInvB s

/-- Snap guide of the claim C2 failing input, referencing object b. -/
def guideToB : SnapGuide :=
  { type := GuideAxis.vertical, position := 100,
    fromObject := { id := "a", edge := Edge.left },
    toObject := { id := "b", edge := Edge.right } }

/-- Failing input for claim C2: a two-object state satisfying the
invariant, with a live snap guide referencing object b. -/
def stC2 : CanvasState :=
  { objects := [objA, objB], selectedId := some "a", panX := 0, panY := 0,
    zoom := 1, history := [[]], historyIndex := 0, snapGuides := [guideToB] }

/-- Claim C2 (code bug): the invariant holds on the failing input, yet
deleting object b leaves the snap guide referencing it in place (the
`DELETE` branch never touches `snapGuides`), and selecting an id that
is not in `objects` is stored unchecked — both successor states
violate the invariant the page diagnostics call a state
inconsistency. -/
theorem c2_delete_and_select_break_invariant :
    stateInvB stC2 = true ∧
    stateInvB (canvasReducer "f" stC2 (CanvasAction.delete "b")) = false ∧
    stateInvB (canvasReducer "f" stC2 (CanvasAction.select (some "ghost"))) = false := by
  decide

end MotionPad
